import Mathlib

/-!
Shallow embedding of the PDF template frontend (src/src/App.tsx).

The component keeps seven pieces of React state:
  file, placeholders, fields, fileLocation, downloadLink, isLoading, error.
We model the `fields` object (a JS object keyed by placeholder name) as an
association list with JS-object insertion semantics: assigning to an existing
key replaces its value in place, assigning to a fresh key appends it at the
end.  The two async handlers `uploadTemplate` and `generatePDF` are split into
a "begin" part (everything before the `await fetch`) and a "complete" part
(everything after the response arrives, including the `finally` block); an
extra `pending` field records which async continuation, if any, is awaiting a
response.  The exposed action surface of the rendered UI (which buttons exist
and when they are disabled, which text inputs are rendered) is modelled as a
step function over events.
-/

namespace PdfFrontend

/-- A JS object mapping placeholder names to string values
(`interface Fields { [key: string]: string }`). -/
abbrev Fields := List (String × String)

/-- The keys of a fields object, in insertion order. -/
def Fields.keys (fs : Fields) : List String := fs.map Prod.fst

/-- `Object.values(fields)`: the values of a fields object, in insertion
order. -/
def Fields.values (fs : Fields) : List String := fs.map Prod.snd

/-- JS object assignment `obj[k] = v` (also the effect of
`{ ...fields, [key]: value }`): replace the value of an existing key in
place, or append a brand-new key at the end. -/
def Fields.setKey (fs : Fields) (k v : String) : Fields :=
  if k ∈ fs.keys then
    fs.map (fun kv => if kv.1 = k then (k, v) else kv)
  else
    fs ++ [(k, v)]

/-- `placeholdersArray.reduce((acc, key) => { acc[key] = ""; return acc; }, {})`:
build the fresh fields object with one empty-string entry per placeholder, in
order. -/
def buildFields (placeholders : List String) : Fields :=
  placeholders.foldl (fun acc key => acc.setKey key "") []

/-- The upload service response as the handler observes it: either a
non-ok/throwing outcome, or an ok response whose JSON body carries
`filePath` and a `placeholders` value that may (`some l`) or may not
(`none`, e.g. the string "not-a-list") be an actual array. -/
inductive UploadResponse where
  | fail : UploadResponse
  | ok (filePath : String) (placeholders : Option (List String)) : UploadResponse
deriving DecidableEq, Repr

/-- The generate service response: a non-ok/throwing outcome, or an ok
response carrying `downloadPath`. -/
inductive GenResponse where
  | fail : GenResponse
  | ok (downloadPath : String) : GenResponse
deriving DecidableEq, Repr

/-- Which async handler, if any, is currently awaiting its fetch response. -/
inductive Pending where
  | idle : Pending
  | upload : Pending
  | generate : Pending
deriving DecidableEq, Repr

/-- The React state of the `App` component, plus the `pending` bookkeeping
field recording the in-flight async continuation.  `file` keeps only the
display name of the selected file (its bytes never influence control flow). -/
structure AppState where
  file : Option String
  placeholders : List String
  fields : Fields
  fileLocation : String
  downloadLink : String
  isLoading : Bool
  error : String
  pending : Pending
deriving DecidableEq, Repr

/-- The `useState` initial values. -/
def initState : AppState :=
  { file := Option.none, placeholders := [], fields := [], fileLocation := ""
    downloadLink := "", isLoading := false, error := "", pending := Pending.idle }

/-- `onDrop`: a non-empty accepted-file list replaces the selected file and
clears the error. -/
def onDrop (s : AppState) (name : String) : AppState :=
  { s with file := some name, error := "" }

/-- First half of `uploadTemplate`: the `if (!file) return;` guard, then
`setIsLoading(true); setError("")` and the fetch is issued. -/
def uploadBegin (s : AppState) : AppState :=
  match s.file with
  | Option.none => s
  | some _ =>
      { s with isLoading := true, error := "", pending := Pending.upload }

/-- Second half of `uploadTemplate`, once the response is in: on ok,
`setFileLocation(data.filePath)`, coerce `data.placeholders` through the
`Array.isArray` check, `setPlaceholders`, rebuild `fields`; on failure the
catch block sets the error; the finally block clears `isLoading` on both
paths. -/
def uploadComplete (s : AppState) (r : UploadResponse) : AppState :=
  match r with
  | UploadResponse.fail =>
      { s with error := "Failed to upload template. Please try again."
               isLoading := false, pending := Pending.idle }
  | UploadResponse.ok fp pl =>
      let placeholdersArray := pl.getD []
      { s with fileLocation := fp
               placeholders := placeholdersArray
               fields := buildFields placeholdersArray
               isLoading := false, pending := Pending.idle }

/-- A whole run of `uploadTemplate` against a given service response.  When no
file is selected the handler returns before issuing any request. -/
def uploadRun (s : AppState) (r : UploadResponse) : AppState :=
  match s.file with
  | Option.none => s
  | some _ => uploadComplete (uploadBegin s) r

/-- First half of `generatePDF`: the `if (!fileLocation) return;` guard, then
`setIsLoading(true); setError("")` and the fetch is issued. -/
def generateBegin (s : AppState) : AppState :=
  if s.fileLocation = "" then s
  else { s with isLoading := true, error := "", pending := Pending.generate }

/-- Second half of `generatePDF`: on ok, `setDownloadLink(data.downloadPath)`;
on failure the catch block sets the error; the finally block clears
`isLoading` on both paths. -/
def generateComplete (s : AppState) (r : GenResponse) : AppState :=
  match r with
  | GenResponse.fail =>
      { s with error := "Failed to generate PDF. Please try again."
               isLoading := false, pending := Pending.idle }
  | GenResponse.ok dp =>
      { s with downloadLink := dp, isLoading := false, pending := Pending.idle }

/-- A whole run of `generatePDF` against a given service response. -/
def generateRun (s : AppState) (r : GenResponse) : AppState :=
  if s.fileLocation = "" then s
  else generateComplete (generateBegin s) r

/-- The download anchor's onClick handler: `setDownloadLink("")`. -/
def downloadClick (s : AppState) : AppState :=
  { s with downloadLink := "" }

/-- `Object.values(fields).some((v) => !v)`: for string values `!v` is true
exactly on the empty string. -/
def someEmpty (fs : Fields) : Bool :=
  fs.values.any (fun v => v == "")

/-- The completeness predicate gating generation: no value of the fields
object is empty. -/
def isComplete (fs : Fields) : Bool :=
  !someEmpty fs

/-- The generate button's `disabled` attribute:
`!fileLocation || isLoading || Object.values(fields).some((v) => !v)`. -/
def generateDisabled (s : AppState) : Bool :=
  (s.fileLocation == "") || s.isLoading || someEmpty s.fields

/-- The generate button can actually be clicked: the whole generate/download
section is rendered only under `placeholders.length > 0`, and the button must
not be disabled. -/
def generateCallable (s : AppState) : Bool :=
  decide (0 < s.placeholders.length) && !generateDisabled s

/-- The upload button's `disabled` attribute is `!file || isLoading`; it can
be clicked iff not disabled. -/
def uploadCallable (s : AppState) : Bool :=
  s.file.isSome && !s.isLoading

/-- A TemplateSession exists: a server-side template reference has been
stored (`fileLocation` is non-empty). -/
def sessionExists (s : AppState) : Prop :=
  s.fileLocation ≠ ""

instance (s : AppState) : Decidable (sessionExists s) := by
  unfold sessionExists; infer_instance

/-- The discrete user/service events the rendered component can experience.
`edit k v` is the onChange handler of the text input rendered for placeholder
`k`; such an input exists only for `k ∈ placeholders` (the inputs are produced
by `placeholders.map`), so an edit event for any other name has no handler and
leaves the state unchanged.  `uploadResp`/`genResp` are the arrivals of the
awaited fetch responses. -/
inductive Event where
  | drop (name : String) : Event
  | uploadClick : Event
  | uploadResp (r : UploadResponse) : Event
  | generateClick : Event
  | genResp (r : GenResponse) : Event
  | edit (k v : String) : Event
  | consumeDownload : Event
deriving DecidableEq, Repr

/-- One step of the rendered component: buttons fire only when enabled,
responses are delivered only to the matching awaiting handler, text inputs
exist only for rendered placeholders, and the download anchor exists only when
the section is rendered and `downloadLink` is non-empty. -/
def step (s : AppState) : Event → AppState
  | Event.drop name => onDrop s name
  | Event.uploadClick => if uploadCallable s then uploadBegin s else s
  | Event.uploadResp r =>
      if s.pending = Pending.upload then uploadComplete s r else s
  | Event.generateClick => if generateCallable s then generateBegin s else s
  | Event.genResp r =>
      if s.pending = Pending.generate then generateComplete s r else s
  | Event.edit k v =>
      if k ∈ s.placeholders then { s with fields := s.fields.setKey k v } else s
  | Event.consumeDownload =>
      if 0 < s.placeholders.length ∧ s.downloadLink ≠ "" then downloadClick s
      else s

/-- The state after a sequence of events from the initial render. -/
def run (evs : List Event) : AppState :=
  evs.foldl step initState

/-! ### Lemmas about the fields object -/

theorem Fields.keys_setKey_of_mem {fs : Fields} {k v : String}
    (h : k ∈ fs.keys) : (fs.setKey k v).keys = fs.keys := by
  unfold Fields.setKey
  rw [if_pos h]
  unfold Fields.keys
  rw [List.map_map]
  have hf : (Prod.fst ∘ fun kv : String × String =>
      if kv.1 = k then (k, v) else kv) = Prod.fst := by
    funext kv
    simp only [Function.comp_apply]
    split
    · next heq => exact heq.symm
    · rfl
  rw [hf]

theorem Fields.mem_keys_setKey {fs : Fields} {k v a : String} :
    a ∈ (fs.setKey k v).keys ↔ a ∈ fs.keys ∨ a = k := by
  by_cases h : k ∈ fs.keys
  · rw [Fields.keys_setKey_of_mem h]
    constructor
    · exact Or.inl
    · rintro (ha | rfl) <;> assumption
  · unfold Fields.setKey
    rw [if_neg h]
    unfold Fields.keys
    simp [List.mem_append]

theorem Fields.values_setKey {fs : Fields} {k v : String} {P : String → Prop}
    (hfs : ∀ w ∈ fs.values, P w) (hv : P v) :
    ∀ w ∈ (fs.setKey k v).values, P w := by
  unfold Fields.setKey
  split
  · intro w hw
    unfold Fields.values at hw
    rw [List.map_map] at hw
    obtain ⟨kv, hkv, hw⟩ := List.mem_map.mp hw
    simp only [Function.comp_apply] at hw
    subst hw
    split
    · exact hv
    · exact hfs _ (List.mem_map.mpr ⟨kv, hkv, rfl⟩)
  · intro w hw
    unfold Fields.values at hw
    rw [List.map_append, List.mem_append] at hw
    rcases hw with hw | hw
    · exact hfs w hw
    · simp only [List.map_cons, List.map_nil, List.mem_singleton] at hw
      subst hw
      exact hv

theorem mem_keys_buildFields_foldl (l : List String) :
    ∀ (acc : Fields) (a : String),
      a ∈ (l.foldl (fun acc key => acc.setKey key "") acc).keys ↔
        a ∈ acc.keys ∨ a ∈ l := by
  induction l with
  | nil => simp
  | cons b l ih =>
      intro acc a
      rw [List.foldl_cons, ih, Fields.mem_keys_setKey, List.mem_cons]
      tauto

theorem mem_keys_buildFields {l : List String} {a : String} :
    a ∈ (buildFields l).keys ↔ a ∈ l := by
  unfold buildFields
  rw [mem_keys_buildFields_foldl]
  simp [Fields.keys]

theorem values_buildFields_foldl (l : List String) :
    ∀ acc : Fields, (∀ w ∈ acc.values, w = "") →
      ∀ w ∈ (l.foldl (fun acc key => acc.setKey key "") acc).values, w = "" := by
  induction l with
  | nil => intro acc hacc; exact hacc
  | cons b l ih =>
      intro acc hacc
      rw [List.foldl_cons]
      exact ih _ (Fields.values_setKey hacc rfl)

theorem values_buildFields {l : List String} :
    ∀ w ∈ (buildFields l).values, w = "" := by
  unfold buildFields
  exact values_buildFields_foldl l [] (by simp [Fields.values])

theorem isComplete_iff {fs : Fields} :
    isComplete fs = true ↔ ∀ w ∈ fs.values, w ≠ "" := by
  unfold isComplete someEmpty
  rw [Bool.not_eq_true', List.any_eq_false]
  constructor
  · intro h w hw
    have := h w hw
    simpa using this
  · intro h w hw
    simpa using h w hw

/-! ### Inductive invariants of the event-step machine -/

/-- At every moment the domain of the fields object coincides with the
placeholder list of the active template session. -/
def KeysMatch (s : AppState) : Prop :=
  ∀ a, a ∈ s.fields.keys ↔ a ∈ s.placeholders

/-- While an operation is in flight, no error message is displayed. -/
def BusyNoError (s : AppState) : Prop :=
  s.isLoading = true → s.error = ""

theorem keysMatch_step {s : AppState} (hs : KeysMatch s) (e : Event) :
    KeysMatch (step s e) := by
  cases e with
  | drop name => intro a; simpa [step, onDrop] using hs a
  | uploadClick =>
      intro a
      simp only [step]
      split
      · unfold uploadBegin
        cases s.file <;> simpa using hs a
      · exact hs a
  | uploadResp r =>
      intro a
      simp only [step]
      split
      · cases r with
        | fail => simpa [uploadComplete] using hs a
        | ok fp pl => simp [uploadComplete, mem_keys_buildFields]
      · exact hs a
  | generateClick =>
      intro a
      simp only [step]
      split
      · unfold generateBegin
        split <;> simpa using hs a
      · exact hs a
  | genResp r =>
      intro a
      simp only [step]
      split
      · cases r <;> simpa [generateComplete] using hs a
      · exact hs a
  | edit k v =>
      intro a
      simp only [step]
      split
      · next hk =>
          have hkeys : k ∈ s.fields.keys := (hs k).mpr hk
          simpa [Fields.keys_setKey_of_mem hkeys] using hs a
      · exact hs a
  | consumeDownload =>
      intro a
      simp only [step]
      split
      · simpa [downloadClick] using hs a
      · exact hs a

theorem busyNoError_step {s : AppState} (hs : BusyNoError s) (e : Event) :
    BusyNoError (step s e) := by
  cases e with
  | drop name => intro _; simp [step, onDrop]
  | uploadClick =>
      simp only [step]
      split
      · unfold uploadBegin
        cases s.file
        · exact hs
        · intro _; simp
      · exact hs
  | uploadResp r =>
      simp only [step]
      split
      · cases r <;> (intro h; simp [uploadComplete] at h)
      · exact hs
  | generateClick =>
      simp only [step]
      split
      · unfold generateBegin
        split
        · exact hs
        · intro _; simp
      · exact hs
  | genResp r =>
      simp only [step]
      split
      · cases r <;> (intro h; simp [generateComplete] at h)
      · exact hs
  | edit k v =>
      simp only [step]
      split
      · intro h
        simp only at h ⊢
        exact hs h
      · exact hs
  | consumeDownload =>
      simp only [step]
      split
      · intro h
        simp only [downloadClick] at h ⊢
        exact hs h
      · exact hs

theorem keysMatch_foldl (evs : List Event) :
    ∀ s : AppState, KeysMatch s → KeysMatch (evs.foldl step s) := by
  induction evs with
  | nil => intro s hs; exact hs
  | cons e evs ih => intro s hs; exact ih _ (keysMatch_step hs e)

theorem keysMatch_run (evs : List Event) : KeysMatch (run evs) := by
  apply keysMatch_foldl
  intro a
  simp [initState, Fields.keys]

theorem busyNoError_foldl (evs : List Event) :
    ∀ s : AppState, BusyNoError s → BusyNoError (evs.foldl step s) := by
  induction evs with
  | nil => intro s hs; exact hs
  | cons e evs ih => intro s hs; exact ih _ (busyNoError_step hs e)

theorem busyNoError_run (evs : List Event) : BusyNoError (run evs) := by
  apply busyNoError_foldl
  intro h
  simp [initState] at h

theorem uploadBegin_of_some {s : AppState} {n : String} (h : s.file = some n) :
    uploadBegin s =
      { s with isLoading := true, error := "", pending := Pending.upload } := by
  unfold uploadBegin
  rw [h]

theorem uploadRun_of_some {s : AppState} {n : String} (h : s.file = some n)
    (r : UploadResponse) :
    uploadRun s r = uploadComplete (uploadBegin s) r := by
  unfold uploadRun
  rw [h]

theorem exists_some_of_ne_none {s : AppState} (hf : s.file ≠ Option.none) :
    ∃ n, s.file = some n := by
  cases h : s.file with
  | none => exact absurd h hf
  | some n => exact ⟨n, rfl⟩

/-! ### The claims -/

/-- C1: from any state with a selected file, `uploadTemplate` either succeeds
and then the stored placeholder list is exactly the list the service declared
(order preserved) while the fields object is a fresh map whose key set is that
list with every value the empty string, or it fails and then the template
session (server reference and placeholder list) and the fields object are
exactly what they were before the call, with the upload failure message set. -/
theorem upload_atomic (s : AppState) (r : UploadResponse)
    (hf : s.file ≠ Option.none) :
    (∀ fp l, r = UploadResponse.ok fp (some l) →
      (uploadRun s r).placeholders = l ∧
      (∀ a, a ∈ (uploadRun s r).fields.keys ↔ a ∈ l) ∧
      (∀ w ∈ (uploadRun s r).fields.values, w = "")) ∧
    (r = UploadResponse.fail →
      (uploadRun s r).fileLocation = s.fileLocation ∧
      (uploadRun s r).placeholders = s.placeholders ∧
      (uploadRun s r).fields = s.fields ∧
      (uploadRun s r).error = "Failed to upload template. Please try again.") := by
  obtain ⟨n, hn⟩ := exists_some_of_ne_none hf
  constructor
  · rintro fp l rfl
    rw [uploadRun_of_some hn, uploadBegin_of_some hn]
    refine ⟨by simp [uploadComplete], ?_, ?_⟩
    · intro a
      simp [uploadComplete, mem_keys_buildFields]
    · simpa [uploadComplete] using values_buildFields
  · rintro rfl
    rw [uploadRun_of_some hn, uploadBegin_of_some hn]
    simp [uploadComplete]

theorem upload_atomic_witness :
    (uploadRun (run [Event.drop "invoice.pdf"])
      (UploadResponse.ok "/tmp/t1" (some ["name", "amount"]))).placeholders =
        ["name", "amount"] ∧
    (uploadRun (run [Event.drop "invoice.pdf"]) UploadResponse.fail).fields =
      (run [Event.drop "invoice.pdf"]).fields ∧
    (uploadRun (run [Event.drop "invoice.pdf"]) UploadResponse.fail).error =
      "Failed to upload template. Please try again." := by
  have h1 := upload_atomic (run [Event.drop "invoice.pdf"])
    (UploadResponse.ok "/tmp/t1" (some ["name", "amount"])) (by decide)
  have h2 := upload_atomic (run [Event.drop "invoice.pdf"])
    UploadResponse.fail (by decide)
  exact ⟨(h1.1 _ _ rfl).1, (h2.2 rfl).2.2.1, (h2.2 rfl).2.2.2⟩

/-- C2 counterexample: the claimed equivalence "generate is callable iff a
TemplateSession exists and isComplete() holds" fails at two reachable states.
First, after a successful upload whose `placeholders` was not an array: the
server reference is stored (a session exists) and the empty fields object is
vacuously complete, the app is not busy, yet generate is not callable because
the generate section is rendered only when `placeholders.length > 0`.  Second,
while a generate request is in flight: the session exists, the fields are
complete, yet the button is disabled because `isLoading` is true. -/
theorem generate_gating_counterexample :
    (sessionExists (run [Event.drop "a.pdf", Event.uploadClick,
        Event.uploadResp (UploadResponse.ok "/tmp/t2" Option.none)]) ∧
      isComplete (run [Event.drop "a.pdf", Event.uploadClick,
        Event.uploadResp (UploadResponse.ok "/tmp/t2" Option.none)]).fields = true ∧
      (run [Event.drop "a.pdf", Event.uploadClick,
        Event.uploadResp (UploadResponse.ok "/tmp/t2" Option.none)]).isLoading = false ∧
      generateCallable (run [Event.drop "a.pdf", Event.uploadClick,
        Event.uploadResp (UploadResponse.ok "/tmp/t2" Option.none)]) = false) ∧
    (sessionExists (run [Event.drop "a.pdf", Event.uploadClick,
        Event.uploadResp (UploadResponse.ok "/tmp/t1" (some ["name"])),
        Event.edit "name" "Alice", Event.generateClick]) ∧
      isComplete (run [Event.drop "a.pdf", Event.uploadClick,
        Event.uploadResp (UploadResponse.ok "/tmp/t1" (some ["name"])),
        Event.edit "name" "Alice", Event.generateClick]).fields = true ∧
      generateCallable (run [Event.drop "a.pdf", Event.uploadClick,
        Event.uploadResp (UploadResponse.ok "/tmp/t1" (some ["name"])),
        Event.edit "name" "Alice", Event.generateClick]) = false) := by
  decide

/-- C2 (amended): generate is callable iff a TemplateSession exists, its
placeholder list is non-empty, no operation is in flight, and isComplete()
is true; and in any state whose fields are incomplete, generate is impossible
through the exposed surface: the button is disabled and clicking is a no-op. -/
theorem generate_gating (s : AppState) :
    (generateCallable s = true ↔
      sessionExists s ∧ 0 < s.placeholders.length ∧
      s.isLoading = false ∧ isComplete s.fields = true) ∧
    (isComplete s.fields = false →
      generateCallable s = false ∧ step s Event.generateClick = s) := by
  constructor
  · unfold generateCallable generateDisabled sessionExists isComplete
    simp only [Bool.and_eq_true, decide_eq_true_iff, Bool.not_eq_true',
      Bool.or_eq_false_iff, beq_eq_false_iff_ne, ne_eq]
    tauto
  · intro h
    have hsome : someEmpty s.fields = true := by
      unfold isComplete at h
      rwa [Bool.not_eq_false'] at h
    have hcall : generateCallable s = false := by
      unfold generateCallable generateDisabled
      simp [hsome]
    exact ⟨hcall, by simp [step, hcall]⟩

theorem generate_gating_witness :
    generateCallable (run [Event.drop "a.pdf", Event.uploadClick,
      Event.uploadResp (UploadResponse.ok "/tmp/t1" (some ["name"])),
      Event.edit "name" "Alice"]) = true ∧
    generateCallable (run [Event.drop "a.pdf", Event.uploadClick,
      Event.uploadResp (UploadResponse.ok "/tmp/t1" (some ["name"]))]) = false ∧
    step (run [Event.drop "a.pdf", Event.uploadClick,
      Event.uploadResp (UploadResponse.ok "/tmp/t1" (some ["name"]))])
      Event.generateClick =
      run [Event.drop "a.pdf", Event.uploadClick,
        Event.uploadResp (UploadResponse.ok "/tmp/t1" (some ["name"]))] := by
  have hA := generate_gating (run [Event.drop "a.pdf", Event.uploadClick,
    Event.uploadResp (UploadResponse.ok "/tmp/t1" (some ["name"])),
    Event.edit "name" "Alice"])
  have hB := generate_gating (run [Event.drop "a.pdf", Event.uploadClick,
    Event.uploadResp (UploadResponse.ok "/tmp/t1" (some ["name"]))])
  exact ⟨hA.1.mpr (by decide), (hB.2 (by decide)).1, (hB.2 (by decide)).2⟩

/-- C3: the completeness predicate that gates generation is true iff every
value of the fields object is a non-empty string; this holds for every fields
object, hence in particular after any sequence of edits, including an edit
that sets a previously non-empty value back to the empty string. -/
theorem isComplete_characterization :
    (∀ fs : Fields, isComplete fs = true ↔ ∀ w ∈ fs.values, w ≠ "") ∧
    (∀ evs : List Event,
      isComplete (run evs).fields = true ↔
        ∀ w ∈ (run evs).fields.values, w ≠ "") :=
  ⟨fun _ => isComplete_iff, fun _ => isComplete_iff⟩

/-- C4: both handlers set the busy flag at the start of the operation (right
after their early-return guard) and clear it when the response is handled, on
the success and the failure path alike (the `finally` blocks). -/
theorem busy_flag_discipline (s t : AppState)
    (rU : UploadResponse) (rG : GenResponse)
    (hf : s.file ≠ Option.none) (hl : s.fileLocation ≠ "") :
    (uploadBegin s).isLoading = true ∧
    (uploadComplete t rU).isLoading = false ∧
    (generateBegin s).isLoading = true ∧
    (generateComplete t rG).isLoading = false := by
  obtain ⟨n, hn⟩ := exists_some_of_ne_none hf
  refine ⟨?_, ?_, ?_, ?_⟩
  · rw [uploadBegin_of_some hn]
  · cases rU <;> simp [uploadComplete]
  · unfold generateBegin
    rw [if_neg hl]
  · cases rG <;> simp [generateComplete]

theorem busy_flag_discipline_witness :
    (uploadBegin (run [Event.drop "a.pdf", Event.uploadClick,
      Event.uploadResp (UploadResponse.ok "/tmp/t1" (some ["name"]))])).isLoading
        = true ∧
    (uploadComplete initState UploadResponse.fail).isLoading = false ∧
    (generateBegin (run [Event.drop "a.pdf", Event.uploadClick,
      Event.uploadResp (UploadResponse.ok "/tmp/t1" (some ["name"]))])).isLoading
        = true ∧
    (generateComplete initState GenResponse.fail).isLoading = false :=
  busy_flag_discipline
    (run [Event.drop "a.pdf", Event.uploadClick,
      Event.uploadResp (UploadResponse.ok "/tmp/t1" (some ["name"]))])
    initState UploadResponse.fail GenResponse.fail (by decide) (by decide)

/-- C5 counterexample: after a full round (upload, fill, successful generate)
followed by a second successful upload, the new session is in place — the
server reference and placeholder list are the new ones — yet the prior
GenerationResult is still stored: `uploadTemplate` never touches
`downloadLink`, so the claim that a second upload discards the prior
GenerationResult is false. -/
theorem second_upload_counterexample :
    (run [Event.drop "a.pdf", Event.uploadClick,
      Event.uploadResp (UploadResponse.ok "/tmp/t1" (some ["name"])),
      Event.edit "name" "Alice", Event.generateClick,
      Event.genResp (GenResponse.ok "/out/d1.pdf"),
      Event.uploadClick,
      Event.uploadResp (UploadResponse.ok "/tmp/t2" (some ["x"]))]).fileLocation
        = "/tmp/t2" ∧
    (run [Event.drop "a.pdf", Event.uploadClick,
      Event.uploadResp (UploadResponse.ok "/tmp/t1" (some ["name"])),
      Event.edit "name" "Alice", Event.generateClick,
      Event.genResp (GenResponse.ok "/out/d1.pdf"),
      Event.uploadClick,
      Event.uploadResp (UploadResponse.ok "/tmp/t2" (some ["x"]))]).placeholders
        = ["x"] ∧
    (run [Event.drop "a.pdf", Event.uploadClick,
      Event.uploadResp (UploadResponse.ok "/tmp/t1" (some ["name"])),
      Event.edit "name" "Alice", Event.generateClick,
      Event.genResp (GenResponse.ok "/out/d1.pdf"),
      Event.uploadClick,
      Event.uploadResp (UploadResponse.ok "/tmp/t2" (some ["x"]))]).downloadLink
        = "/out/d1.pdf" := by
  decide

/-- C5 (amended): a second successful upload, from any state with a selected
file, fully replaces the TemplateSession and the FieldMap — the new key set is
the new placeholder list with every value reset to the empty string, so all
previously entered values are discarded even for shared placeholder names —
but it leaves any prior GenerationResult exactly as it was (the stored
download reference is not cleared). -/
theorem second_upload_replaces (s : AppState) (fp : String) (l : List String)
    (hf : s.file ≠ Option.none) :
    (uploadRun s (UploadResponse.ok fp (some l))).fileLocation = fp ∧
    (uploadRun s (UploadResponse.ok fp (some l))).placeholders = l ∧
    (∀ a, a ∈ (uploadRun s (UploadResponse.ok fp (some l))).fields.keys ↔
      a ∈ l) ∧
    (∀ w ∈ (uploadRun s (UploadResponse.ok fp (some l))).fields.values,
      w = "") ∧
    (uploadRun s (UploadResponse.ok fp (some l))).downloadLink =
      s.downloadLink := by
  obtain ⟨n, hn⟩ := exists_some_of_ne_none hf
  rw [uploadRun_of_some hn, uploadBegin_of_some hn]
  refine ⟨by simp [uploadComplete], by simp [uploadComplete], ?_, ?_, ?_⟩
  · intro a
    simp [uploadComplete, mem_keys_buildFields]
  · simpa [uploadComplete] using values_buildFields
  · simp [uploadComplete]

theorem second_upload_replaces_witness :
    (uploadRun (run [Event.drop "a.pdf", Event.uploadClick,
        Event.uploadResp (UploadResponse.ok "/tmp/t1" (some ["name"])),
        Event.edit "name" "Alice", Event.generateClick,
        Event.genResp (GenResponse.ok "/out/d1.pdf")])
      (UploadResponse.ok "/tmp/t2" (some ["name"]))).placeholders = ["name"] ∧
    (∀ w ∈ (uploadRun (run [Event.drop "a.pdf", Event.uploadClick,
        Event.uploadResp (UploadResponse.ok "/tmp/t1" (some ["name"])),
        Event.edit "name" "Alice", Event.generateClick,
        Event.genResp (GenResponse.ok "/out/d1.pdf")])
      (UploadResponse.ok "/tmp/t2" (some ["name"]))).fields.values, w = "") ∧
    (uploadRun (run [Event.drop "a.pdf", Event.uploadClick,
        Event.uploadResp (UploadResponse.ok "/tmp/t1" (some ["name"])),
        Event.edit "name" "Alice", Event.generateClick,
        Event.genResp (GenResponse.ok "/out/d1.pdf")])
      (UploadResponse.ok "/tmp/t2" (some ["name"]))).downloadLink =
      (run [Event.drop "a.pdf", Event.uploadClick,
        Event.uploadResp (UploadResponse.ok "/tmp/t1" (some ["name"])),
        Event.edit "name" "Alice", Event.generateClick,
        Event.genResp (GenResponse.ok "/out/d1.pdf")]).downloadLink := by
  have h := second_upload_replaces
    (run [Event.drop "a.pdf", Event.uploadClick,
      Event.uploadResp (UploadResponse.ok "/tmp/t1" (some ["name"])),
      Event.edit "name" "Alice", Event.generateClick,
      Event.genResp (GenResponse.ok "/out/d1.pdf")])
    "/tmp/t2" ["name"] (by decide)
  exact ⟨h.2.1, h.2.2.2.1, h.2.2.2.2⟩

/-- C6: in every reachable state the key set of the fields object coincides
with the active placeholder list, and an edit event whose name is not among
the placeholders (hence not an existing key) has no rendered input attached to
it and leaves the state unchanged — it never silently creates a new key. -/
theorem fields_domain_invariant :
    (∀ (evs : List Event) (a : String),
      a ∈ (run evs).fields.keys ↔ a ∈ (run evs).placeholders) ∧
    (∀ (s : AppState) (k v : String), k ∉ s.placeholders →
      step s (Event.edit k v) = s) := by
  constructor
  · intro evs
    exact keysMatch_run evs
  · intro s k v hk
    simp [step, hk]

theorem fields_domain_invariant_witness :
    ("name" ∈ (run [Event.drop "a.pdf", Event.uploadClick,
      Event.uploadResp (UploadResponse.ok "/tmp/t1" (some ["name"]))]).fields.keys ↔
      "name" ∈ (run [Event.drop "a.pdf", Event.uploadClick,
        Event.uploadResp (UploadResponse.ok "/tmp/t1" (some ["name"]))]).placeholders) ∧
    step (run [Event.drop "a.pdf", Event.uploadClick,
        Event.uploadResp (UploadResponse.ok "/tmp/t1" (some ["name"]))])
      (Event.edit "bogus" "x") =
      run [Event.drop "a.pdf", Event.uploadClick,
        Event.uploadResp (UploadResponse.ok "/tmp/t1" (some ["name"]))] :=
  ⟨fields_domain_invariant.1 [Event.drop "a.pdf", Event.uploadClick,
      Event.uploadResp (UploadResponse.ok "/tmp/t1" (some ["name"]))] "name",
    fields_domain_invariant.2
      (run [Event.drop "a.pdf", Event.uploadClick,
        Event.uploadResp (UploadResponse.ok "/tmp/t1" (some ["name"]))])
      "bogus" "x" (by decide)⟩

/-- C7: an ok upload response whose `placeholders` field is not an actual
array is normalized by the `Array.isArray` check: the stored placeholder list
becomes `[]`, the fields object becomes the empty map, no error is raised,
and the server reference is still stored. -/
theorem malformed_placeholders_normalized (s : AppState) (fp : String)
    (hf : s.file ≠ Option.none) :
    (uploadRun s (UploadResponse.ok fp Option.none)).placeholders = [] ∧
    (uploadRun s (UploadResponse.ok fp Option.none)).fields = [] ∧
    (uploadRun s (UploadResponse.ok fp Option.none)).error = "" ∧
    (uploadRun s (UploadResponse.ok fp Option.none)).fileLocation = fp := by
  obtain ⟨n, hn⟩ := exists_some_of_ne_none hf
  rw [uploadRun_of_some hn, uploadBegin_of_some hn]
  refine ⟨by simp [uploadComplete], ?_, by simp [uploadComplete],
    by simp [uploadComplete]⟩
  simp [uploadComplete, buildFields]

theorem malformed_placeholders_normalized_witness :
    (uploadRun (run [Event.drop "a.pdf"])
      (UploadResponse.ok "/tmp/t2" Option.none)).placeholders = [] ∧
    (uploadRun (run [Event.drop "a.pdf"])
      (UploadResponse.ok "/tmp/t2" Option.none)).fields = [] ∧
    (uploadRun (run [Event.drop "a.pdf"])
      (UploadResponse.ok "/tmp/t2" Option.none)).error = "" :=
  ⟨(malformed_placeholders_normalized (run [Event.drop "a.pdf"]) "/tmp/t2"
      (by decide)).1,
    (malformed_placeholders_normalized (run [Event.drop "a.pdf"]) "/tmp/t2"
      (by decide)).2.1,
    (malformed_placeholders_normalized (run [Event.drop "a.pdf"]) "/tmp/t2"
      (by decide)).2.2.1⟩

/-- C8: a successful generate run stores exactly the download reference
decoded from the service response, overwriting whatever was there before,
and activating the download anchor clears the stored reference to the empty
string unconditionally. -/
theorem generation_result_lifecycle (s t : AppState) (dp : String)
    (hl : s.fileLocation ≠ "") :
    (generateRun s (GenResponse.ok dp)).downloadLink = dp ∧
    (downloadClick t).downloadLink = "" := by
  constructor
  · unfold generateRun
    rw [if_neg hl]
    simp [generateComplete]
  · rfl

theorem generation_result_lifecycle_witness :
    (generateRun (run [Event.drop "a.pdf", Event.uploadClick,
        Event.uploadResp (UploadResponse.ok "/tmp/t1" (some ["name"])),
        Event.edit "name" "Alice"])
      (GenResponse.ok "/out/d1.pdf")).downloadLink = "/out/d1.pdf" ∧
    (downloadClick (run [Event.drop "a.pdf", Event.uploadClick,
        Event.uploadResp (UploadResponse.ok "/tmp/t1" (some ["name"])),
        Event.edit "name" "Alice", Event.generateClick,
        Event.genResp (GenResponse.ok "/out/d1.pdf")])).downloadLink = "" :=
  generation_result_lifecycle
    (run [Event.drop "a.pdf", Event.uploadClick,
      Event.uploadResp (UploadResponse.ok "/tmp/t1" (some ["name"])),
      Event.edit "name" "Alice"])
    (run [Event.drop "a.pdf", Event.uploadClick,
      Event.uploadResp (UploadResponse.ok "/tmp/t1" (some ["name"])),
      Event.edit "name" "Alice", Event.generateClick,
      Event.genResp (GenResponse.ok "/out/d1.pdf")])
    "/out/d1.pdf" (by decide)

/-- C9 counterexample: after a successful upload (the session reference
"/tmp/t1" is stored) the selected source file is still present —
`uploadTemplate` never calls `setFile`, so the claim that the SourceFile is
cleared on successful upload is false. -/
theorem file_retained_counterexample :
    (run [Event.drop "a.pdf", Event.uploadClick,
      Event.uploadResp (UploadResponse.ok "/tmp/t1" (some ["name"]))]).fileLocation
        = "/tmp/t1" ∧
    (run [Event.drop "a.pdf", Event.uploadClick,
      Event.uploadResp (UploadResponse.ok "/tmp/t1" (some ["name"]))]).file
        = some "a.pdf" := by
  decide

/-- C9 (amended): an upload run, successful or failed, leaves the selected
SourceFile untouched; the selection is only ever replaced by a later file
pick, never cleared by the upload. -/
theorem upload_retains_file (s : AppState) (r : UploadResponse)
    (hf : s.file ≠ Option.none) :
    (uploadRun s r).file = s.file := by
  obtain ⟨n, hn⟩ := exists_some_of_ne_none hf
  rw [uploadRun_of_some hn, uploadBegin_of_some hn]
  cases r <;> simp [uploadComplete]

theorem upload_retains_file_witness :
    (uploadRun (run [Event.drop "a.pdf"])
      (UploadResponse.ok "/tmp/t1" (some ["name"]))).file =
      (run [Event.drop "a.pdf"]).file :=
  upload_retains_file (run [Event.drop "a.pdf"])
    (UploadResponse.ok "/tmp/t1" (some ["name"])) (by decide)

/-- C10: both handlers clear the error message in the same state update that
sets the busy flag, so in every reachable state a raised busy flag implies an
empty error message: an error and an in-flight operation are never visible
simultaneously. -/
theorem busy_implies_no_error (evs : List Event) :
    (run evs).isLoading = true → (run evs).error = "" :=
  busyNoError_run evs

theorem busy_implies_no_error_witness :
    (run [Event.drop "a.pdf", Event.uploadClick]).isLoading = true ∧
    (run [Event.drop "a.pdf", Event.uploadClick]).error = "" :=
  ⟨by decide, busy_implies_no_error [Event.drop "a.pdf", Event.uploadClick]
    (by decide)⟩

end PdfFrontend
